import Mathlib

/-!
Shallow embedding of the stock_analyzer service layer of FinReport_WebApp
(`src/stock_analyzer/services.py` and `src/stock_analyzer/models.py`).

Modelling conventions:
* Python `None` is `Option.none`; a dict field that can hold `None` is an
  `Option`-typed field of a structure.
* Python floats are modelled as rationals (`ℚ`); where IEEE special values
  (inf / NaN) matter (the pandas RSI and beta computations) an explicit
  `PFloat` type with `nan` / `inf` / `ninf` constructors is used.
* A provider call that can either raise or return a value is modelled by the
  `Outcome` type; the fallback orchestrators take provider outcomes as
  arguments, so theorems quantify over all provider behaviours.
* Wall-clock time is a rational number of seconds; dates handed out by the
  calendar (`timezone.now().date()` and date arithmetic) are abstracted as a
  function from day offsets to a (day, month, rendered string) record.
-/

/-! ### Request cache (`request_cached`, services.py lines 20-52) -/

/-- The process-wide request cache `_request_cache`: a Python dict from the
string key `f"..."` built out of the function name and arguments to the pair
`(insertion time, cached value)`. -/
abbrev ReqCache (V : Type) := String → Option (ℚ × V)

/-- Dict membership / read: `_request_cache[key]`. -/
def cacheGet {V : Type} (c : ReqCache V) (k : String) : Option (ℚ × V) := c k

/-- `_request_cache[key] = (datetime.now(), result)`: a dict store always
overwrites whatever entry existed for `key`. -/
def cachePut {V : Type} (c : ReqCache V) (k : String) (t : ℚ) (v : V) : ReqCache V :=
  fun k2 => if k2 = k then some (t, v) else c k2

/-- One call through the `request_cached(ttl_seconds)` wrapper at time `now`:
if the key is present and its age is `< ttl_seconds`, return the cached value
without invoking the wrapped function; otherwise invoke it and overwrite the
cache entry.  The third component records whether the wrapped function was
actually invoked. -/
def request_cached {V : Type} (ttl : ℚ) (k : String) (now : ℚ) (f : Unit → V)
    (c : ReqCache V) : V × ReqCache V × Bool :=
  match cacheGet c k with
  | some (t, v) =>
      if now - t < ttl then (v, c, false)
      else (f (), cachePut c k now (f ()), true)
  | none => (f (), cachePut c k now (f ()), true)

/-! ### Recommendation thresholds (`calculate_investment_score`,
services.py lines 1199-1208) -/

/-- The recommendation label derived from the overall score: default `hold`,
`>= 80` strong_buy, `elif >= 60` buy, `elif <= 20` strong_sell,
`elif <= 40` sell. -/
def recommendation (overall_score : ℚ) : String :=
  if overall_score ≥ 80 then "strong_buy"
  else if overall_score ≥ 60 then "buy"
  else if overall_score ≤ 20 then "strong_sell"
  else if overall_score ≤ 40 then "sell"
  else "hold"

theorem request_cached_miss {V : Type} (ttl : ℚ) (k : String) (now : ℚ)
    (f : Unit → V) (c : ReqCache V) (h : cacheGet c k = none) :
    request_cached ttl k now f c = (f (), cachePut c k now (f ()), true) := by
  unfold request_cached
  rw [h]

theorem request_cached_hit {V : Type} (ttl : ℚ) (k : String) (now : ℚ)
    (f : Unit → V) (c : ReqCache V) (t : ℚ) (v : V)
    (h : cacheGet c k = some (t, v)) (hin : now - t < ttl) :
    request_cached ttl k now f c = (v, c, false) := by
  unfold request_cached
  rw [h]
  simp [hin]

theorem request_cached_expired {V : Type} (ttl : ℚ) (k : String) (now : ℚ)
    (f : Unit → V) (c : ReqCache V) (t : ℚ) (v : V)
    (h : cacheGet c k = some (t, v)) (hout : ttl ≤ now - t) :
    request_cached ttl k now f c = (f (), cachePut c k now (f ()), true) := by
  unfold request_cached
  rw [h]
  simp [not_lt.mpr hout]

theorem cacheGet_cachePut_self {V : Type} (c : ReqCache V) (k : String)
    (t : ℚ) (v : V) : cacheGet (cachePut c k t v) k = some (t, v) := by
  simp [cacheGet, cachePut]

/-! ### Provider outcomes -/

/-- A provider call either raises an exception or returns a value (possibly
`None`).  The fallback orchestrators are embedded as functions of the
provider outcomes, so theorems quantify over all provider behaviours. -/
inductive Outcome (A : Type) where
  | thrown : Outcome A
  | ret : Option A → Outcome A
deriving DecidableEq

/-- A provider "fails" by raising an exception or by returning the empty
result `None`. -/
def Outcome.fails {A : Type} : Outcome A → Prop
  | .thrown => True
  | .ret r => r = none

/-! ### Company info (`get_company_info` lines 78-122, `get_company_info_sec`
lines 383-556, `get_company_info_with_fallback` lines 746-802 of
services.py) -/

/-- The company-info dict built by both providers; the two providers build
the same key set (services.py lines 100-111 and 536-547).  `market_cap` and
`employee_count` hold numbers, the remaining keys hold strings. -/
structure CompanyInfo where
  stock_symbol : Option String
  company_name : Option String
  sector : Option String
  industry : Option String
  description : Option String
  country : Option String
  market_cap : Option Int
  website : Option String
  logo_url : Option String
  employee_count : Option Int
deriving DecidableEq

/-- Python truthiness of an optional string value: `None` and `""` are
falsy. -/
def strTruthy : Option String → Bool
  | none => false
  | some s => s != ""

/-- Python truthiness of an optional numeric value: `None` and `0` are
falsy. -/
def intTruthy : Option Int → Bool
  | none => false
  | some n => n != 0

/-- One step of the merge loop (services.py lines 779-782) on a string
field: `if not company_info.get(key) and value is not None:
company_info[key] = value`. -/
def mergeStr (s p : Option String) : Option String :=
  if !strTruthy s && p.isSome then p else s

/-- The same merge step on a numeric field. -/
def mergeInt (s p : Option Int) : Option Int :=
  if !intTruthy s && p.isSome then p else s

/-- The whole merge loop `for key, value in polygon_info.items(): ...`
(services.py lines 777-783), written field by field (the loop touches each
key exactly once, so iteration order is irrelevant). -/
def mergeCompanyInfo (sec poly : CompanyInfo) : CompanyInfo where
  stock_symbol := mergeStr sec.stock_symbol poly.stock_symbol
  company_name := mergeStr sec.company_name poly.company_name
  sector := mergeStr sec.sector poly.sector
  industry := mergeStr sec.industry poly.industry
  description := mergeStr sec.description poly.description
  country := mergeStr sec.country poly.country
  market_cap := mergeInt sec.market_cap poly.market_cap
  website := mergeStr sec.website poly.website
  logo_url := mergeStr sec.logo_url poly.logo_url
  employee_count := mergeInt sec.employee_count poly.employee_count

/-- The incompleteness test of services.py lines 762-767: `sector`,
`industry` or `description` is missing (Python-falsy). -/
def hasMissingFields (info : CompanyInfo) : Bool :=
  !strTruthy info.sector || !strTruthy info.industry || !strTruthy info.description

/-- `get_company_info_with_fallback` (services.py lines 746-802) as a
function of the SEC and Polygon provider outcomes.  The outer
`try/except` returns `None` on an exception; the SEC result counts as
meaningful when it is a dict (always truthy) with a truthy `company_name`;
Polygon is consulted for a merge only when a required field is missing, and
a Polygon exception there is swallowed (`# Continue with SEC data`); on a
meaningless SEC result Polygon's result is returned as-is, with `None` on a
Polygon exception. -/
def get_company_info_with_fallback (sec poly : Outcome CompanyInfo) :
    Option CompanyInfo :=
  match sec with
  | .thrown => none
  | .ret secInfo =>
    match secInfo with
    | some info =>
      if strTruthy info.company_name then
        if hasMissingFields info then
          match poly with
          | .thrown => some info
          | .ret none => some info
          | .ret (some pinfo) => some (mergeCompanyInfo info pinfo)
        else some info
      else
        match poly with
        | .thrown => none
        | .ret r => r
    | none =>
      match poly with
      | .thrown => none
      | .ret r => r

/-! ### Financial ratios (`get_financial_ratios` lines 167-221,
`get_financial_ratios_sec` lines 664-705,
`get_financial_ratios_with_fallback` lines 707-743 of services.py) -/

/-- The four financial ratios computed by both providers (services.py lines
207-212 and 693-698). -/
structure FinRatios where
  profit_margin : Option ℚ
  roe : Option ℚ
  roa : Option ℚ
  debt_to_equity : Option ℚ
deriving DecidableEq

/-- The ratios result dict: both providers set `date` and `ratios`; the SEC
provider additionally sets `source` (the literal "SEC") and `url`
(services.py lines 691-701), keys the Polygon dict lacks (lines 214-217,
modelled as `none`). -/
structure FinRatiosResult where
  date : Option String
  ratios : FinRatios
  source : Option String
  url : Option String
deriving DecidableEq

/-- The completeness test of services.py line 719: `ratios and
ratios['ratios'] and any(value is not None for value in
ratios['ratios'].values())`.  The inner `ratios` dict always carries its
four keys, hence is always truthy, so the test reduces to "some ratio value
is present". -/
def ratiosComplete : Option FinRatiosResult → Bool
  | none => false
  | some r =>
      r.ratios.profit_margin.isSome || r.ratios.roe.isSome ||
      r.ratios.roa.isSome || r.ratios.debt_to_equity.isSome

/-- `get_financial_ratios_with_fallback` (services.py lines 707-743) as a
function of the SEC and Polygon provider outcomes.  If the SEC result is
complete it is returned; otherwise the Polygon result is returned as-is
(line 727: `return get_financial_ratios(ticker)`); only if the Polygon call
raises is the partial SEC result returned (lines 728-734); if the SEC call
itself raises, a last-resort Polygon call is made with `None` on a further
exception (lines 736-743). -/
def get_financial_ratios_with_fallback (sec poly : Outcome FinRatiosResult) :
    Option FinRatiosResult :=
  match sec with
  | .thrown =>
    match poly with
    | .thrown => none
    | .ret r => r
  | .ret secR =>
    if ratiosComplete secR then secR
    else
      match poly with
      | .thrown => secR
      | .ret r => r

/-- C5: two sequential calls through `request_cached` with the same key,
starting from a cache miss, invoke the underlying function exactly once when
the second call falls within the TTL window (the second call returns the
first call's value, leaves the cache unchanged and does not invoke); a second
call at or after TTL expiry invokes the underlying function again; and a
store always overwrites any existing entry for the same key. -/
theorem request_cached_ttl_behavior {V : Type} (ttl t0 t1 : ℚ) (k : String)
    (f : Unit → V) (c : ReqCache V) (hmiss : cacheGet c k = none) :
    ((request_cached ttl k t0 f c).2.2 = true) ∧
    (t1 - t0 < ttl →
      request_cached ttl k t1 f (request_cached ttl k t0 f c).2.1
        = (f (), (request_cached ttl k t0 f c).2.1, false)) ∧
    (ttl ≤ t1 - t0 →
      (request_cached ttl k t1 f (request_cached ttl k t0 f c).2.1).2.2 = true) ∧
    (∀ (c2 : ReqCache V) (t : ℚ) (v : V), cacheGet (cachePut c2 k t v) k = some (t, v)) := by
  have h1 := request_cached_miss ttl k t0 f c hmiss
  refine ⟨?_, ?_, ?_, ?_⟩
  · rw [h1]
  · intro hin
    rw [h1]
    exact request_cached_hit ttl k t1 f _ t0 (f ())
      (cacheGet_cachePut_self c k t0 (f ())) hin
  · intro hout
    rw [h1, request_cached_expired ttl k t1 f _ t0 (f ())
      (cacheGet_cachePut_self c k t0 (f ())) hout]
  · intro c2 t v
    exact cacheGet_cachePut_self c2 k t v

theorem request_cached_ttl_behavior_witness :
    request_cached 60 "k" 30 (fun _ => (42 : ℕ))
        (request_cached 60 "k" 0 (fun _ => (42 : ℕ)) (fun _ => none)).2.1
      = (42, (request_cached 60 "k" 0 (fun _ => (42 : ℕ)) (fun _ => none)).2.1, false) ∧
    (request_cached 60 "k" 90 (fun _ => (42 : ℕ))
        (request_cached 60 "k" 0 (fun _ => (42 : ℕ)) (fun _ => none)).2.1).2.2 = true :=
  ⟨(request_cached_ttl_behavior 60 0 30 "k" (fun _ => 42) (fun _ => none) rfl).2.1
      (by norm_num),
   (request_cached_ttl_behavior 60 0 90 "k" (fun _ => 42) (fun _ => none) rfl).2.2.1
      (by norm_num)⟩

/-- C10: the cache stores failure results the same as successes: when the
wrapped function's error handler returns the empty value `none`, that value
is inserted into the cache, and a subsequent call with the same key within
the TTL returns the cached `none` without re-invoking the provider. -/
theorem request_cached_caches_failures {A : Type} (ttl t0 t1 : ℚ) (k : String)
    (f : Unit → Option A) (c : ReqCache (Option A))
    (hmiss : cacheGet c k = none) (hf : f () = none) (hin : t1 - t0 < ttl) :
    (request_cached ttl k t0 f c).1 = none ∧
    cacheGet (request_cached ttl k t0 f c).2.1 k = some (t0, none) ∧
    request_cached ttl k t1 f (request_cached ttl k t0 f c).2.1
      = (none, (request_cached ttl k t0 f c).2.1, false) := by
  have h1 := request_cached_miss ttl k t0 f c hmiss
  refine ⟨?_, ?_, ?_⟩
  · rw [h1, hf]
  · rw [h1]
    rw [hf]
    exact cacheGet_cachePut_self c k t0 none
  · rw [h1]
    have h2 := request_cached_hit ttl k t1 f (cachePut c k t0 (f ())) t0 (f ())
      (cacheGet_cachePut_self c k t0 (f ())) hin
    rw [h2, hf]

theorem request_cached_caches_failures_witness :
    (request_cached 300 "k2" 0 (fun _ => (none : Option ℕ)) (fun _ => none)).1 = none ∧
    cacheGet (request_cached 300 "k2" 0 (fun _ => (none : Option ℕ))
        (fun _ => none)).2.1 "k2" = some (0, none) ∧
    request_cached 300 "k2" 100 (fun _ => (none : Option ℕ))
        (request_cached 300 "k2" 0 (fun _ => (none : Option ℕ)) (fun _ => none)).2.1
      = (none, (request_cached 300 "k2" 0 (fun _ => (none : Option ℕ))
          (fun _ => none)).2.1, false) :=
  request_cached_caches_failures 300 0 100 "k2" (fun _ => none) (fun _ => none)
    rfl rfl (by norm_num)

/-- C4: the recommendation is assigned by inclusive thresholds resolving ties
toward the higher-conviction band: `>= 80` strong_buy, otherwise `>= 60` buy,
otherwise `<= 20` strong_sell, otherwise `<= 40` sell, otherwise hold; in
particular 80.0 gives strong_buy, 79.99 gives buy and 40.0 gives sell. -/
theorem recommendation_thresholds (s : ℚ) :
    (80 ≤ s → recommendation s = "strong_buy") ∧
    (s < 80 → 60 ≤ s → recommendation s = "buy") ∧
    (s ≤ 20 → recommendation s = "strong_sell") ∧
    (20 < s → s ≤ 40 → recommendation s = "sell") ∧
    (40 < s → s < 60 → recommendation s = "hold") ∧
    recommendation 80 = "strong_buy" ∧
    recommendation (7999/100) = "buy" ∧
    recommendation 40 = "sell" := by
  refine ⟨?_, ?_, ?_, ?_, ?_, ?_, ?_, ?_⟩
  · intro h; simp [recommendation, h]
  · intro h1 h2
    simp [recommendation, h2, not_le.mpr h1]
  · intro h
    have h1 : ¬ (80 : ℚ) ≤ s := by linarith
    have h2 : ¬ (60 : ℚ) ≤ s := by linarith
    simp [recommendation, h, h1, h2]
  · intro h1 h2
    have h3 : ¬ (80 : ℚ) ≤ s := by linarith
    have h4 : ¬ (60 : ℚ) ≤ s := by linarith
    have h5 : ¬ s ≤ (20 : ℚ) := by linarith
    simp [recommendation, h2, h3, h4, h5]
  · intro h1 h2
    have h3 : ¬ (80 : ℚ) ≤ s := by linarith
    have h4 : ¬ (60 : ℚ) ≤ s := by linarith
    have h5 : ¬ s ≤ (20 : ℚ) := by linarith
    have h6 : ¬ s ≤ (40 : ℚ) := by linarith
    simp [recommendation, h3, h4, h5, h6]
  · norm_num [recommendation]
  · norm_num [recommendation]
  · norm_num [recommendation]

theorem recommendation_thresholds_witness :
    recommendation 90 = "strong_buy" ∧
    recommendation 70 = "buy" ∧
    recommendation 15 = "strong_sell" ∧
    recommendation 30 = "sell" ∧
    recommendation 50 = "hold" :=
  ⟨(recommendation_thresholds 90).1 (by norm_num),
   (recommendation_thresholds 70).2.1 (by norm_num) (by norm_num),
   (recommendation_thresholds 15).2.2.1 (by norm_num),
   (recommendation_thresholds 30).2.2.2.1 (by norm_num) (by norm_num),
   (recommendation_thresholds 50).2.2.2.2.1 (by norm_num) (by norm_num)⟩

/-! ### IEEE-style float values for the pandas computations -/

/-- The slice of IEEE float behaviour the pandas code exercises: finite
values (kept exact as rationals), the infinities produced by nonzero/0
division, and NaN — which pandas also uses as its missing-data marker.
Nonzero/0 is mapped to the positive-zero case of IEEE (the only one the
exact rolling means produce here). -/
inductive PFloat where
  | nan : PFloat
  | inf : PFloat
  | ninf : PFloat
  | fin : ℚ → PFloat
deriving DecidableEq

def PFloat.div : PFloat → PFloat → PFloat
  | nan, _ => nan
  | _, nan => nan
  | inf, inf => nan
  | inf, ninf => nan
  | ninf, inf => nan
  | ninf, ninf => nan
  | inf, fin b => if b < 0 then ninf else inf
  | ninf, fin b => if b < 0 then inf else ninf
  | fin _, inf => fin 0
  | fin _, ninf => fin 0
  | fin a, fin b =>
      if b = 0 then (if a = 0 then nan else if 0 < a then inf else ninf)
      else fin (a / b)

/-- Python truthiness of a float: `bool(x)` is `False` only for zero; NaN
and the infinities are truthy. -/
def PFloat.pyTruthy : PFloat → Bool
  | nan => true
  | inf => true
  | ninf => true
  | fin q => q != 0

/-- Arithmetic mean of a list of rationals. -/
def listMean (xs : List ℚ) : ℚ := xs.sum / (xs.length : ℚ)

/-- pandas `Series.var()` (sample variance, ddof=1): NaN when fewer than
two observations, else the exact sample variance. -/
def sampleVar (xs : List ℚ) : PFloat :=
  if xs.length < 2 then PFloat.nan
  else PFloat.fin ((xs.map (fun x => (x - listMean xs) ^ 2)).sum /
    ((xs.length : ℚ) - 1))

/-- pandas `Series.cov(other)` on the aligned pairs (sample covariance,
ddof=1): NaN when fewer than two pairs. -/
def sampleCov (ps : List (ℚ × ℚ)) : PFloat :=
  if ps.length < 2 then PFloat.nan
  else PFloat.fin
    ((ps.map (fun p => (p.1 - listMean (ps.map Prod.fst)) *
        (p.2 - listMean (ps.map Prod.snd)))).sum / ((ps.length : ℚ) - 1))

/-- The beta computation of services.py lines 284-290, as a function of the
alignment outcome.  `none` models an exception inside the inner `try`
(e.g. a missing `close` column when the reference data came back empty),
which is caught and sets `beta = None`; `some pairs` is the merged list of
aligned (stock return, market return) rows.  The source line is
`beta = covariance / market_variance if market_variance else None`: the
conditional tests Python truthiness of the variance, so a zero variance
yields `None`. -/
def computeBeta (alignment : Option (List (ℚ × ℚ))) : Option PFloat :=
  match alignment with
  | none => none
  | some pairs =>
      let v := sampleVar (pairs.map Prod.snd)
      if v.pyTruthy then some (PFloat.div (sampleCov pairs) v) else none

/-- C8: the beta computation never divides by zero: when the reference
index's return variance over the aligned window is exactly zero, the Python
truthiness guard makes beta `None` (null) rather than performing the
division, and when alignment fails with an exception the caught error also
yields `None`. -/
theorem beta_null_on_zero_variance (pairs : List (ℚ × ℚ))
    (h : sampleVar (pairs.map Prod.snd) = PFloat.fin 0) :
    computeBeta (some pairs) = none ∧ computeBeta none = none := by
  constructor
  · simp [computeBeta, h, PFloat.pyTruthy]
  · rfl

theorem beta_null_on_zero_variance_witness :
    computeBeta (some ([(1, 2), (3, 2)] : List (ℚ × ℚ))) = none ∧
    computeBeta none = none :=
  beta_null_on_zero_variance ([(1, 2), (3, 2)] : List (ℚ × ℚ))
    (by norm_num [sampleVar, listMean])

/-! ### EconomicIndicator persistence (models.py lines 151-175,
services.py lines 1015-1029) -/

/-- A row of the `EconomicIndicator` table: `(indicator_type, date)` is
declared `unique_together`, `value` is the stored float. -/
structure EconRow where
  indicator_type : String
  date : String
  value : ℚ
deriving DecidableEq

/-- Whether a row holds the given natural key. -/
def rowMatches (itype date : String) (r : EconRow) : Bool :=
  r.indicator_type == itype && r.date == date

/-- `EconomicIndicator.objects.update_or_create(indicator_type=..., date=...,
defaults={...})` (services.py lines 1025-1029): if a row with the key
exists, set its `value`; otherwise insert a new row.  Under the
key-uniqueness invariant at most one row matches, so updating every
matching row coincides with Django's get-then-save. -/
def update_or_create (db : List EconRow) (itype date : String) (v : ℚ) :
    List EconRow :=
  if db.any (rowMatches itype date) then
    db.map (fun r => if rowMatches itype date r then { r with value := v } else r)
  else db ++ [{ indicator_type := itype, date := date, value := v }]

/-- The number of rows holding a given natural key. -/
def keyCount (db : List EconRow) (itype date : String) : ℕ :=
  db.countP (rowMatches itype date)

/-- The uniqueness invariant of `unique_together = ['indicator_type',
'date']`: no two rows share a key. -/
def NoDupKeys (db : List EconRow) : Prop :=
  ∀ itype date, keyCount db itype date ≤ 1

/-- The persistence loop of `get_economic_dashboard` (services.py lines
1022-1029): one upsert per fetched `(indicator_type, date, value)`
triple. -/
def saveIndicators (db : List EconRow) (data : List (String × String × ℚ)) :
    List EconRow :=
  data.foldl (fun acc item => update_or_create acc item.1 item.2.1 item.2.2) db

theorem rowMatches_update (itype date i2 d2 : String) (v : ℚ) (r : EconRow) :
    rowMatches i2 d2 (if rowMatches itype date r then { r with value := v } else r)
      = rowMatches i2 d2 r := by
  by_cases hr : rowMatches itype date r = true
  · rw [if_pos hr]
    rfl
  · rw [if_neg hr]

theorem countP_update_or_create_of_mem (db : List EconRow) (itype date : String)
    (v : ℚ) (i2 d2 : String) (h : db.any (rowMatches itype date) = true) :
    (update_or_create db itype date v).countP (rowMatches i2 d2)
      = db.countP (rowMatches i2 d2) := by
  rw [update_or_create, if_pos h, List.countP_map]
  apply List.countP_congr
  intro r _
  simp only [Function.comp_apply, rowMatches_update itype date i2 d2 v r]

theorem noDupKeys_update_or_create (db : List EconRow) (itype date : String)
    (v : ℚ) (h : NoDupKeys db) :
    NoDupKeys (update_or_create db itype date v) := by
  intro i2 d2
  unfold keyCount
  by_cases hc : db.any (rowMatches itype date) = true
  · rw [countP_update_or_create_of_mem db itype date v i2 d2 hc]
    exact h i2 d2
  · rw [update_or_create, if_neg hc, List.countP_append]
    by_cases hk : rowMatches i2 d2
        { indicator_type := itype, date := date, value := v } = true
    · have hkey : i2 = itype ∧ d2 = date := by
        have hk2 := hk
        simp only [rowMatches, Bool.and_eq_true, beq_iff_eq] at hk2
        exact ⟨hk2.1.symm, hk2.2.symm⟩
      obtain ⟨rfl, rfl⟩ := hkey
      have h0 : db.countP (rowMatches i2 d2) = 0 := by
        rw [List.countP_eq_zero]
        intro a ha hpa
        exact hc (List.any_eq_true.mpr ⟨a, ha, hpa⟩)
      rw [h0]
      simp [hk]
    · have h1 : List.countP (rowMatches i2 d2)
          [{ indicator_type := itype, date := date, value := v }] = 0 := by
        simp [hk]
      rw [h1]
      simpa using h i2 d2

theorem any_update_or_create_self (db : List EconRow) (itype date : String)
    (v : ℚ) :
    (update_or_create db itype date v).any (rowMatches itype date) = true := by
  unfold update_or_create
  by_cases hc : db.any (rowMatches itype date) = true
  · rw [if_pos hc]
    obtain ⟨r, hr, hpr⟩ := List.any_eq_true.mp hc
    refine List.any_eq_true.mpr ⟨_, List.mem_map.mpr ⟨r, hr, rfl⟩, ?_⟩
    rw [rowMatches_update]
    exact hpr
  · rw [if_neg hc]
    refine List.any_eq_true.mpr ⟨_, List.mem_append_right _ (List.mem_singleton.mpr rfl), ?_⟩
    simp [rowMatches]

theorem any_update_or_create_mono (db : List EconRow) (itype date i2 d2 : String)
    (v : ℚ) (h : db.any (rowMatches i2 d2) = true) :
    (update_or_create db itype date v).any (rowMatches i2 d2) = true := by
  unfold update_or_create
  obtain ⟨r, hr, hpr⟩ := List.any_eq_true.mp h
  by_cases hc : db.any (rowMatches itype date) = true
  · rw [if_pos hc]
    refine List.any_eq_true.mpr ⟨_, List.mem_map.mpr ⟨r, hr, rfl⟩, ?_⟩
    rw [rowMatches_update]
    exact hpr
  · rw [if_neg hc]
    exact List.any_eq_true.mpr ⟨r, List.mem_append_left _ hr, hpr⟩

theorem any_saveIndicators_mono (data : List (String × String × ℚ)) :
    ∀ (db : List EconRow) (i2 d2 : String),
      db.any (rowMatches i2 d2) = true →
      (saveIndicators db data).any (rowMatches i2 d2) = true := by
  induction data with
  | nil => intro db i2 d2 h; exact h
  | cons item rest ih =>
    intro db i2 d2 h
    exact ih _ i2 d2 (any_update_or_create_mono db item.1 item.2.1 i2 d2 item.2.2 h)

theorem any_saveIndicators_of_mem (data : List (String × String × ℚ)) :
    ∀ (db : List EconRow) (item : String × String × ℚ), item ∈ data →
      (saveIndicators db data).any (rowMatches item.1 item.2.1) = true := by
  induction data with
  | nil => intro db item h; cases h
  | cons hd rest ih =>
    intro db item h
    rcases List.mem_cons.mp h with h1 | h2
    · subst h1
      exact any_saveIndicators_mono rest _ item.1 item.2.1
        (any_update_or_create_self db item.1 item.2.1 item.2.2)
    · exact ih _ item h2

theorem length_update_or_create_of_mem (db : List EconRow) (itype date : String)
    (v : ℚ) (h : db.any (rowMatches itype date) = true) :
    (update_or_create db itype date v).length = db.length := by
  rw [update_or_create, if_pos h, List.length_map]

theorem length_saveIndicators_of_all_mem (data : List (String × String × ℚ)) :
    ∀ (db : List EconRow),
      (∀ item ∈ data, db.any (rowMatches item.1 item.2.1) = true) →
      (saveIndicators db data).length = db.length := by
  induction data with
  | nil => intro db _; rfl
  | cons hd rest ih =>
    intro db h
    have hhd := h hd (List.mem_cons_self hd rest)
    have hstep : saveIndicators db (hd :: rest)
        = saveIndicators (update_or_create db hd.1 hd.2.1 hd.2.2) rest := rfl
    rw [hstep, ih _ ?_, length_update_or_create_of_mem db hd.1 hd.2.1 hd.2.2 hhd]
    intro item hm
    exact any_update_or_create_mono db hd.1 hd.2.1 item.1 item.2.1 hd.2.2
      (h item (List.mem_cons_of_mem hd hm))

/-- C7: re-running the persistence of economic-indicator rows for the same
data is idempotent with respect to persisted rows: starting from a database
satisfying the `(indicator_type, date)` uniqueness invariant, one run of the
upsert loop preserves the invariant (the database never holds two rows with
the same key-date pair), and a second run with the same data adds no row at
all — every key already exists, so each `update_or_create` updates in
place. -/
theorem econ_indicator_upsert_idempotent (db : List EconRow)
    (data : List (String × String × ℚ)) (h : NoDupKeys db) :
    NoDupKeys (saveIndicators db data) ∧
    (saveIndicators (saveIndicators db data) data).length
      = (saveIndicators db data).length := by
  constructor
  · induction data generalizing db with
    | nil => exact h
    | cons hd rest ih =>
      exact ih (update_or_create db hd.1 hd.2.1 hd.2.2)
        (noDupKeys_update_or_create db hd.1 hd.2.1 hd.2.2 h)
  · exact length_saveIndicators_of_all_mem data _
      (fun item hm => any_saveIndicators_of_mem data db item hm)

theorem econ_indicator_upsert_idempotent_witness :
    NoDupKeys (saveIndicators [] [("gdp", "2024-01-01", 2)]) ∧
    (saveIndicators (saveIndicators [] [("gdp", "2024-01-01", 2)])
        [("gdp", "2024-01-01", 2)]).length
      = (saveIndicators [] [("gdp", "2024-01-01", 2)]).length :=
  econ_indicator_upsert_idempotent [] [("gdp", "2024-01-01", 2)]
    (fun itype date => by simp [keyCount])

/-! ### Economic dashboard (`get_economic_dashboard` lines 946-1045 and
`generate_mock_economic_data` lines 1047-1103 of services.py) -/

/-- The five indicator types, in the insertion order of the
`indicator_mappings` dict (services.py lines 958-964), which is also the
order of the mock settings dict (lines 1056-1062). -/
def indicatorTypes : List String :=
  ["interest_rate", "unemployment", "inflation", "gdp", "yield_curve"]

/-- One (date, value) data point as produced by `get_economic_indicator`
and by the mock generator. -/
structure EconPoint where
  date : String
  value : ℚ
deriving DecidableEq

/-- The dashboard payload `{'latest': ..., 'historical': ...}`. -/
structure EconDashboard where
  latest : List (String × EconPoint)
  historical : List (String × List EconPoint)
deriving DecidableEq

/-- What the mock generator reads off the date `today - i*30 days`: its
`.day`, its `.month`, and its `'%Y-%m-%d'` rendering.  The calendar
(`timezone.now().date()` and `timedelta` arithmetic) is an external
collaborator, so it enters as an abstract function of the month offset. -/
structure MockDate where
  day : ℕ
  month : ℕ
  text : String

/-- The per-indicator mock settings `(start_value, volatility, trend,
allow_negative)` of services.py lines 1056-1062. -/
def mockSettings : List (String × ℚ × ℚ × Bool × Bool) :=
  [("interest_rate", 3, 3/2, true, false),
   ("unemployment", 6, 5/2, false, false),
   ("inflation", 5, 7/2, true, false),
   ("gdp", 2, 2, false, false),
   ("yield_curve", 3/2, 5/2, true, true)]

/-- One iteration of the mock loop (services.py lines 1074-1095) at month
offset `i`: the deterministic pseudo-random change derived from the date's
day and month, the optional trend term, the every-three-months spike, and
the floor at 0.1 when negatives are disallowed. -/
def mockStep (dateAt : ℕ → MockDate) (volatility : ℚ) (hasTrend allowNeg : Bool)
    (i : ℕ) (current : ℚ) : ℚ :=
  let d := dateAt i
  let randomBase : ℚ := (((d.day * d.month) % 10 : ℕ) : ℚ) / 10 - 1/2
  let trend : ℚ := if hasTrend then (i : ℚ) / 12 * (1/2) else 0
  let spike : ℚ := (((d.day + d.month) % 5 : ℕ) : ℚ) / 5 * (3/2)
  let randomValue : ℚ :=
    if i % 3 = 0 then
      (if d.month % 2 = 0 then randomBase + spike else randomBase - spike)
    else randomBase
  let next := current + (randomValue * volatility + trend)
  if allowNeg then next else max (1/10) next

/-- The mock series loop over the offsets `range(12, -1, -1)`, threading
`current_value` and appending one point per offset. -/
def mockSeriesAux (dateAt : ℕ → MockDate) (volatility : ℚ)
    (hasTrend allowNeg : Bool) (current : ℚ) : List ℕ → List EconPoint
  | [] => []
  | i :: rest =>
      let next := mockStep dateAt volatility hasTrend allowNeg i current
      { date := (dateAt i).text, value := next } ::
        mockSeriesAux dateAt volatility hasTrend allowNeg next rest

/-- `range(12, -1, -1)`: thirteen month offsets, today (`0`) last. -/
def mockOffsets : List ℕ := [12, 11, 10, 9, 8, 7, 6, 5, 4, 3, 2, 1, 0]

def mockSeries (dateAt : ℕ → MockDate) (start volatility : ℚ)
    (hasTrend allowNeg : Bool) : List EconPoint :=
  mockSeriesAux dateAt volatility hasTrend allowNeg start mockOffsets

/-- `generate_mock_economic_data` (services.py lines 1047-1103):
`mock_indicators[t]` is the generated series and `mock_latest[t]` its last
point (`mock_series[-1]`, always defined since the series has 13 points). -/
def generate_mock_economic_data (dateAt : ℕ → MockDate) : EconDashboard where
  latest := mockSettings.filterMap (fun s =>
    (mockSeries dateAt s.2.1 s.2.2.1 s.2.2.2.1 s.2.2.2.2).getLast?.map
      (fun p => (s.1, p)))
  historical := mockSettings.map (fun s =>
    (s.1, mockSeries dateAt s.2.1 s.2.2.1 s.2.2.2.1 s.2.2.2.2))

/-- `get_economic_dashboard(force_refresh)` (services.py lines 946-1045) as
a function of the database view (the two ORM queries per indicator type,
external collaborators), the FRED fetcher (`get_economic_indicator` per
FRED code) and the calendar.  The second component counts FRED API calls.
When `force_refresh` is false and every indicator has a latest database
row, the database result is returned with no FRED call; otherwise, if
`force_refresh` is true, the mock generator's output is returned before any
FRED call (lines 1009-1013); otherwise one FRED call is made per indicator
type and nonempty results are kept (the accompanying database writes are
the upsert loop modelled by `saveIndicators`). -/
def get_economic_dashboard (forceRefresh : Bool)
    (dbLatest : String → Option EconPoint)
    (dbHistorical : String → List EconPoint)
    (fred : String → List EconPoint)
    (dateAt : ℕ → MockDate) : EconDashboard × ℕ :=
  if !forceRefresh && indicatorTypes.all (fun t => (dbLatest t).isSome) then
    ({ latest := indicatorTypes.filterMap (fun t =>
         (dbLatest t).map (fun p => (t, p))),
       historical := indicatorTypes.filterMap (fun t =>
         if (dbLatest t).isSome && !(dbHistorical t).isEmpty
         then some (t, dbHistorical t) else none) }, 0)
  else if forceRefresh then
    (generate_mock_economic_data dateAt, 0)
  else
    let fetched := indicatorTypes.filterMap (fun t =>
      if (fred t).isEmpty then none else some (t, fred t))
    ({ latest := fetched.filterMap (fun p =>
         p.2.getLast?.map (fun q => (p.1, q))),
       historical := fetched }, indicatorTypes.length)

theorem mockSeriesAux_length (dateAt : ℕ → MockDate) (volatility : ℚ)
    (hasTrend allowNeg : Bool) :
    ∀ (l : List ℕ) (current : ℚ),
      (mockSeriesAux dateAt volatility hasTrend allowNeg current l).length
        = l.length := by
  intro l
  induction l with
  | nil => intro c; rfl
  | cons i rest ih =>
    intro c
    simp [mockSeriesAux, ih]

/-- C9: calling `get_economic_dashboard` with `force_refresh=True` never
contacts the FRED provider (zero FRED calls are made) and unconditionally
returns the output of the deterministic mock generator — whatever the
database holds and however the FRED fetcher would behave — and that mock
output carries, for each of the five indicator types in order, a historical
series of exactly 13 approximately-monthly points derived from date
arithmetic. -/
theorem force_refresh_returns_mock (dbLatest : String → Option EconPoint)
    (dbHistorical : String → List EconPoint) (fred : String → List EconPoint)
    (dateAt : ℕ → MockDate) :
    get_economic_dashboard true dbLatest dbHistorical fred dateAt
      = (generate_mock_economic_data dateAt, 0) ∧
    (generate_mock_economic_data dateAt).historical.map Prod.fst
      = indicatorTypes ∧
    (generate_mock_economic_data dateAt).historical.map (fun p => p.2.length)
      = [13, 13, 13, 13, 13] := by
  refine ⟨?_, ?_, ?_⟩
  · simp [get_economic_dashboard]
  · simp [generate_mock_economic_data, mockSettings, indicatorTypes]
  · simp [generate_mock_economic_data, mockSettings, mockSeries,
      mockSeriesAux_length, mockOffsets]

/-! ### C1: the company-info merge -/

/-- An SEC company-info result with a company name, a missing `sector` (so
Polygon is consulted) and the non-null but Python-falsy value `0` in
`market_cap`. -/
def secInfoEx : CompanyInfo where
  stock_symbol := some "ACME"
  company_name := some "Acme Corp"
  sector := none
  industry := some "Industrial Machinery"
  description := some "Makes anvils."
  country := some "US"
  market_cap := some 0
  website := none
  logo_url := none
  employee_count := some 1200

/-- A Polygon company-info result carrying a non-null `market_cap`. -/
def polyInfoEx : CompanyInfo where
  stock_symbol := some "ACME"
  company_name := some "Acme Corporation"
  sector := some "Manufacturing"
  industry := some "Machinery"
  description := some "Anvil maker."
  country := some "us"
  market_cap := some 123456
  website := some "https://acme.example"
  logo_url := none
  employee_count := some 1300

theorem mergeStr_of_truthy (s p : Option String) (h : strTruthy s = true) :
    mergeStr s p = s := by
  simp [mergeStr, h]

theorem mergeInt_of_truthy (s p : Option Int) (h : intTruthy s = true) :
    mergeInt s p = s := by
  simp [mergeInt, h]

theorem mergeStr_changed (s p : Option String) (h : mergeStr s p ≠ s) :
    strTruthy s = false ∧ p.isSome = true ∧ mergeStr s p = p := by
  unfold mergeStr at h ⊢
  by_cases hc : (!strTruthy s && p.isSome) = true
  · rw [if_pos hc]
    simp only [Bool.and_eq_true, Bool.not_eq_true'] at hc
    exact ⟨hc.1, hc.2, rfl⟩
  · rw [if_neg hc] at h
    exact absurd rfl h

theorem mergeInt_changed (s p : Option Int) (h : mergeInt s p ≠ s) :
    intTruthy s = false ∧ p.isSome = true ∧ mergeInt s p = p := by
  unfold mergeInt at h ⊢
  by_cases hc : (!intTruthy s && p.isSome) = true
  · rw [if_pos hc]
    simp only [Bool.and_eq_true, Bool.not_eq_true'] at hc
    exact ⟨hc.1, hc.2, rfl⟩
  · rw [if_neg hc] at h
    exact absurd rfl h

/-- C1 counterexample: the SEC result `secInfoEx` has a company name, is
missing `sector` (so Polygon is consulted), and carries the non-null value
`0` in `market_cap`; the merge nevertheless overwrites that non-null SEC
field with the Polygon value `123456`, because the guard
`not company_info.get(key)` tests Python falsiness, not emptiness/None. -/
theorem company_info_merge_overwrites_nonnull_zero :
    secInfoEx.market_cap = some 0 ∧
    (get_company_info_with_fallback (Outcome.ret (some secInfoEx))
        (Outcome.ret (some polyInfoEx))).map CompanyInfo.market_cap
      = some (some 123456) := by
  constructor
  · rfl
  · rfl

/-- C1 amended: when the SEC result has a company name and a required field
is missing, the whole result is the field-level merge `mergeCompanyInfo`,
where a Polygon value is copied into a field only if the SEC value is
Python-falsy (`None`, the empty string, or the number `0`) and the Polygon
value is non-null; a truthy SEC field is never overwritten (but a non-null
falsy SEC value, such as `market_cap = 0`, is). -/
theorem company_info_merge_primary_wins (sec poly : CompanyInfo)
    (hname : strTruthy sec.company_name = true)
    (hmiss : hasMissingFields sec = true) :
    get_company_info_with_fallback (Outcome.ret (some sec))
        (Outcome.ret (some poly)) = some (mergeCompanyInfo sec poly) ∧
    (∀ s p : Option String, strTruthy s = true → mergeStr s p = s) ∧
    (∀ s p : Option Int, intTruthy s = true → mergeInt s p = s) ∧
    (∀ s p : Option String, mergeStr s p ≠ s →
      strTruthy s = false ∧ p.isSome = true ∧ mergeStr s p = p) ∧
    (∀ s p : Option Int, mergeInt s p ≠ s →
      intTruthy s = false ∧ p.isSome = true ∧ mergeInt s p = p) := by
  refine ⟨?_, mergeStr_of_truthy, mergeInt_of_truthy, mergeStr_changed,
    mergeInt_changed⟩
  simp [get_company_info_with_fallback, hname, hmiss]

theorem company_info_merge_primary_wins_witness :
    get_company_info_with_fallback (Outcome.ret (some secInfoEx))
        (Outcome.ret (some polyInfoEx))
      = some (mergeCompanyInfo secInfoEx polyInfoEx) ∧
    mergeStr (some "Finance") (some "Technology") = some "Finance" :=
  ⟨(company_info_merge_primary_wins secInfoEx polyInfoEx (by decide)
      (by decide)).1,
   (company_info_merge_primary_wins secInfoEx polyInfoEx (by decide)
      (by decide)).2.1 (some "Finance") (some "Technology") (by decide)⟩

/-! ### C2: the financial-ratios fallback -/

/-- An incomplete SEC ratios result (every ratio value absent, as
`get_financial_ratios_sec` always produces) with a present date, source and
url. -/
def secRatiosEx : FinRatiosResult where
  date := some "2024-01-01"
  ratios := { profit_margin := none, roe := none, roa := none,
              debt_to_equity := none }
  source := some "SEC"
  url := some "https://sec.example/filing"

/-- A Polygon ratios result with a present `profit_margin` and a different
date. -/
def polyRatiosEx : FinRatiosResult where
  date := some "2024-03-31"
  ratios := { profit_margin := some (1/10), roe := none, roa := none,
              debt_to_equity := none }
  source := none
  url := none

theorem ratiosComplete_false_iff (r : FinRatiosResult) :
    ratiosComplete (some r) = false ↔
      r.ratios.profit_margin = none ∧ r.ratios.roe = none ∧
      r.ratios.roa = none ∧ r.ratios.debt_to_equity = none := by
  obtain ⟨d, ⟨pm, re, ra, de⟩, so, u⟩ := r
  unfold ratiosComplete
  cases pm <;> cases re <;> cases ra <;> cases de <;> simp

/-- C2 counterexample: with the incomplete SEC result `secRatiosEx` (every
ratio value absent, date "2024-01-01" present) and Polygon returning
`polyRatiosEx`, the function returns the Polygon result wholesale: the
present SEC `date` value is replaced by Polygon's "2024-03-31" (and the SEC
`source`/`url` values are dropped), so the behaviour is provider-wins, not a
field-level merge in which no present SEC value is ever replaced. -/
theorem financial_ratios_fallback_not_a_merge :
    ratiosComplete (some secRatiosEx) = false ∧
    secRatiosEx.date = some "2024-01-01" ∧
    get_financial_ratios_with_fallback (Outcome.ret (some secRatiosEx))
        (Outcome.ret (some polyRatiosEx)) = some polyRatiosEx ∧
    (get_financial_ratios_with_fallback (Outcome.ret (some secRatiosEx))
        (Outcome.ret (some polyRatiosEx))).map FinRatiosResult.date
      = some (some "2024-03-31") := by
  refine ⟨rfl, rfl, ?_, ?_⟩
  · rfl
  · rfl

/-- C2 amended: when the SEC ratios result is incomplete, the Polygon result
is returned wholesale (provider-wins at the result level), not merged
field-by-field; this coincides with a field-level primary-wins merge on the
four ratio fields only because incompleteness forces every SEC ratio value
to be absent, while the SEC result's non-ratio fields (`date`, `source`,
`url`) are discarded together with the whole SEC result. -/
theorem financial_ratios_fallback_provider_wins (secR : FinRatiosResult)
    (poly : Option FinRatiosResult)
    (hinc : ratiosComplete (some secR) = false) :
    get_financial_ratios_with_fallback (Outcome.ret (some secR))
        (Outcome.ret poly) = poly ∧
    secR.ratios.profit_margin = none ∧ secR.ratios.roe = none ∧
    secR.ratios.roa = none ∧ secR.ratios.debt_to_equity = none := by
  obtain ⟨h1, h2, h3, h4⟩ := (ratiosComplete_false_iff secR).mp hinc
  refine ⟨?_, h1, h2, h3, h4⟩
  simp [get_financial_ratios_with_fallback, hinc]

theorem financial_ratios_fallback_provider_wins_witness :
    get_financial_ratios_with_fallback (Outcome.ret (some secRatiosEx))
        (Outcome.ret none) = none ∧
    secRatiosEx.ratios.profit_margin = none :=
  ⟨(financial_ratios_fallback_provider_wins secRatiosEx none (by decide)).1,
   (financial_ratios_fallback_provider_wins secRatiosEx none (by decide)).2.1⟩

/-! ### C6: total failure of both providers -/

/-- C6: when both the SEC and the Polygon provider fail — by raising an
exception or by returning the empty result — both
`get_company_info_with_fallback` and `get_financial_ratios_with_fallback`
return `None`; the embeddings are total functions into `Option`, reflecting
that every exception is caught and none propagates to the caller. -/
theorem fallbacks_none_on_total_failure (secC polyC : Outcome CompanyInfo)
    (secR polyR : Outcome FinRatiosResult)
    (h1 : secC.fails) (h2 : polyC.fails) (h3 : secR.fails) (h4 : polyR.fails) :
    get_company_info_with_fallback secC polyC = none ∧
    get_financial_ratios_with_fallback secR polyR = none := by
  constructor
  · cases secC with
    | thrown => rfl
    | ret r =>
      have hr : r = none := h1
      subst hr
      cases polyC with
      | thrown => rfl
      | ret r2 =>
        have hr2 : r2 = none := h2
        subst hr2
        rfl
  · cases secR with
    | thrown =>
      cases polyR with
      | thrown => rfl
      | ret r2 =>
        have hr2 : r2 = none := h4
        subst hr2
        rfl
    | ret r =>
      have hr : r = none := h3
      subst hr
      cases polyR with
      | thrown => rfl
      | ret r2 =>
        have hr2 : r2 = none := h4
        subst hr2
        rfl

theorem fallbacks_none_on_total_failure_witness :
    get_company_info_with_fallback Outcome.thrown (Outcome.ret none) = none ∧
    get_financial_ratios_with_fallback (Outcome.ret none) Outcome.thrown = none :=
  fallbacks_none_on_total_failure Outcome.thrown (Outcome.ret none)
    (Outcome.ret none) Outcome.thrown trivial rfl rfl trivial
